import Mathlib

/-!
Verification of the FinAA personal-finance application core.

The data model is translated from the TypeScript type declarations; the
operations are translated from the application controller, the dashboard
metrics computation, the security vault, the storage service and the
import/scan entry builders.  JavaScript numbers are modelled as rationals
(the claims under study are algebraic, not about float rounding); JS
truthiness of strings and numbers (empty string and zero are falsy) is
modelled explicitly at each use site.
-/

namespace FinAA

/-- Entry kinds, from the EntryType enum in types.ts. -/
inductive EntryType where
  | ASSET
  | LIABILITY
  | EXPENSE
  | BILL
  | INSURANCE
  | BENEFIT
deriving DecidableEq

/-- Web citation attached to AI valuations (GroundingSource in types.ts). -/
structure GroundingSource where
  title : String
  uri : String
deriving DecidableEq

/-- One financial fact (FinanceEntry in types.ts).  Optional TS fields are
Option; the liquidity union and the category union are Strings, as the code
compares them against string literals. -/
structure FinanceEntry where
  id : String
  type : EntryType
  category : String
  name : String
  amount : ℚ
  currency : Option String := none
  initialAmount : Option ℚ := none
  date : String
  address : Option String := none
  plotSize : Option String := none
  propertyType : Option String := none
  valuationSources : Option (List GroundingSource) := none
  lastValuated : Option String := none
  referenceNumber : Option String := none
  linkedAssetId : Option String := none
  statementDriveId : Option String := none
  isRecurring : Option Bool := none
  isWorkProvided : Option Bool := none
  liquidity : Option String := none
  notes : Option String := none
  coverageAmount : Option ℚ := none
  expiryDate : Option String := none
  emi : Option ℚ := none
  monthsRemaining : Option ℚ := none
deriving DecidableEq

/-- A savings target (Goal in types.ts). -/
structure Goal where
  id : String
  name : String
  targetAmount : ℚ
  currentAmount : ℚ
  currency : Option String := none
  deadline : Option String := none
  category : String
  linkedAssetId : Option String := none
deriving DecidableEq

/-- Emergency-access credential (LegacyProfile in types.ts). -/
structure LegacyProfile where
  successorName : String
  recoveryPasskey : String
  isConfigured : Bool
  lastUpdated : String
deriving DecidableEq

/-- The settings record inlined in UserData in types.ts. -/
structure Settings where
  currency : String
  userName : String
  biometricEnabled : Bool
  termsAccepted : Bool
  spreadsheetId : Option String := none
  monthlyBudgetLimit : Option ℚ := none
deriving DecidableEq

/-- Aggregate root (UserData in types.ts).  The exchangeRates record is an
association list keyed by currency code, first match wins, as JS object
indexing never has duplicate keys. -/
structure UserData where
  entries : List FinanceEntry
  goals : List Goal
  lastSynced : String
  exchangeRates : Option (List (String × ℚ)) := none
  legacy : Option LegacyProfile := none
  settings : Settings
deriving DecidableEq

/-- First-match association-list lookup: JS object indexing and the Drive
find-first-file-by-name behaviour. -/
def alistGet {α : Type} (m : List (String × α)) (k : String) : Option α :=
  match m with
  | [] => none
  | (k2, v) :: rest => if k2 = k then some v else alistGet rest k

/-- Replace the first binding of a key, used by upserting writes. -/
def alistReplaceFirst {α : Type} : List (String × α) → String → α → List (String × α)
  | [], _, _ => []
  | (k2, v2) :: rest, k, v =>
    if k2 = k then (k, v) :: rest else (k2, v2) :: alistReplaceFirst rest k v

/-- Upsert: overwrite the first existing binding, otherwise append.  Models
assignment to a JS object key and the save-or-create file write. -/
def alistPut {α : Type} (m : List (String × α)) (k : String) (v : α) : List (String × α) :=
  if (alistGet m k).isSome then alistReplaceFirst m k v else m ++ [(k, v)]

/-- Rate lookup in the cached exchange-rate table. -/
def lookupRate (rates : List (String × ℚ)) (c : String) : Option ℚ :=
  alistGet rates c

/-- Dashboard getConvertedAmount.  JS truthiness is modelled: a missing or
empty currency code and a zero rate fall back to the raw amount. -/
def getConvertedAmount (baseCurrency : String) (exchangeRates : Option (List (String × ℚ)))
    (amount : ℚ) (fromCurrency : Option String) : ℚ :=
  match fromCurrency with
  | none => amount
  | some c =>
    if c = "" ∨ c = baseCurrency then amount
    else
      match lookupRate (exchangeRates.getD []) c with
      | some r => if r = 0 then amount else amount / r
      | none => amount

/-- MatrixItem getConverted (MatrixView).  Same fallbacks as the dashboard
conversion; the rate table is accessed through an optional chain. -/
def matrixGetConverted (baseCurrency : String) (rates : Option (List (String × ℚ)))
    (itemCurrency : Option String) (amount : ℚ) : ℚ :=
  match itemCurrency with
  | none => amount
  | some c =>
    if c = "" ∨ c = baseCurrency then amount
    else
      match rates with
      | none => amount
      | some rs =>
        match lookupRate rs c with
        | some r => if r = 0 then amount else amount / r
        | none => amount

/-- Accumulator of the Dashboard stats fold. -/
structure StatsAcc where
  assets : ℚ
  debt : ℚ
  burn : ℚ
  monthlyInflow : ℚ
  savings : ℚ
deriving DecidableEq

/-- Initial accumulator: all dashboard counters start at zero. -/
def statsAcc0 : StatsAcc := ⟨0, 0, 0, 0, 0⟩

/-- One step of the Dashboard stats fold over the entry list. -/
def statsStep (baseCurrency : String) (exchangeRates : Option (List (String × ℚ)))
    (currentMonth : String) (acc : StatsAcc) (e : FinanceEntry) : StatsAcc :=
  let amt := getConvertedAmount baseCurrency exchangeRates e.amount e.currency
  let entryMonth := e.date.take 7
  match e.type with
  | .ASSET =>
    let acc1 := { acc with assets := acc.assets + amt }
    let acc2 :=
      if entryMonth = currentMonth ∧ e.category = "Income" then
        { acc1 with monthlyInflow := acc1.monthlyInflow + amt }
      else acc1
    if entryMonth = currentMonth ∧ (e.category = "Savings" ∨ e.category = "Investments") then
      { acc2 with savings := acc2.savings + amt }
    else acc2
  | .LIABILITY => { acc with debt := acc.debt + amt }
  | .EXPENSE => if entryMonth = currentMonth then { acc with burn := acc.burn + amt } else acc
  | .BILL => if entryMonth = currentMonth then { acc with burn := acc.burn + amt } else acc
  | .INSURANCE => acc
  | .BENEFIT => acc

/-- The Dashboard stats fold over the full entry list. -/
def computeStatsAcc (data : UserData) (currentMonth : String) : StatsAcc :=
  data.entries.foldl
    (statsStep data.settings.currency data.exchangeRates currentMonth) statsAcc0

/-- Net worth as the Dashboard computes it: accumulated assets minus
accumulated debt. -/
def netWorth (data : UserData) (currentMonth : String) : ℚ :=
  let acc := computeStatsAcc data currentMonth
  acc.assets - acc.debt

/-- Conversion exactly as claim C2 words it: amount divided by the table rate
for the entry currency, the raw amount when the currency is absent from the
entry or equals the base currency.  Spec-side definition, for comparison with
the code-side getConvertedAmount. -/
def claimConvert (baseCurrency : String) (rates : List (String × ℚ))
    (amount : ℚ) (currency : Option String) : ℚ :=
  match currency with
  | none => amount
  | some c =>
    if c = baseCurrency then amount
    else
      match lookupRate rates c with
      | some r => amount / r
      | none => amount

/-- Net worth as claim C2 words it: sum of base-converted ASSET amounts minus
sum of base-converted LIABILITY amounts. -/
def claimNetWorth (data : UserData) (rates : List (String × ℚ)) : ℚ :=
  ((data.entries.filter (fun e => e.type == EntryType.ASSET)).map
    (fun e => claimConvert data.settings.currency rates e.amount e.currency)).sum
  - ((data.entries.filter (fun e => e.type == EntryType.LIABILITY)).map
    (fun e => claimConvert data.settings.currency rates e.amount e.currency)).sum

/-- Side condition of C2: the rate table is complete and usable for the entry,
i.e. every nonempty non-base currency carried by the entry has a nonzero rate. -/
def ratesOkFor (baseCurrency : String) (rates : List (String × ℚ)) (e : FinanceEntry) : Bool :=
  match e.currency with
  | none => true
  | some c =>
    (!(c == "")) && ((c == baseCurrency) || !(decide ((lookupRate rates c).getD 0 = 0)))

/-- Whitespace class of the JS regex backslash-s, restricted to the ASCII
whitespace characters (the only ones the vault UI can produce). -/
def jsWhitespaceChar (c : Char) : Bool :=
  c == ' ' || c == '\t' || c == '\n' || c == '\r' || c == '\x0b' || c == '\x0c'

/-- Drop leading whitespace from a character list. -/
def dropLeadingWs : List Char → List Char
  | [] => []
  | c :: cs => if jsWhitespaceChar c then dropLeadingWs cs else c :: cs

/-- The JS String trim: remove leading and trailing whitespace. -/
def jsTrimChars (l : List Char) : List Char :=
  (dropLeadingWs ((dropLeadingWs l).reverse)).reverse

/-- Normalisation the vault applies to the typed passkey input:
trim, upper-case, then strip whitespace only (the hyphen is NOT stripped,
mirroring the replace with the whitespace-only pattern in the source). -/
def normalizedInput (s : String) : String :=
  String.mk (((jsTrimChars s.data).map Char.toUpper).filter (fun c => !(jsWhitespaceChar c)))

/-- Normalisation the vault applies to the stored recovery passkey:
trim, upper-case, then strip whitespace AND hyphens. -/
def normalizedStored (s : String) : String :=
  String.mk (((jsTrimChars s.data).map Char.toUpper).filter
    (fun c => !(jsWhitespaceChar c || c == '-')))

/-- SecurityVault handlePasskeyUnlock: fails when no legacy profile or an
empty (falsy) stored passkey exists, otherwise compares the two
normalisations.  True means the vault unlocks. -/
def passkeyUnlockCheck (legacy : Option LegacyProfile) (input : String) : Bool :=
  match legacy with
  | none => false
  | some l =>
    if l.recoveryPasskey = "" then false
    else normalizedInput input == normalizedStored l.recoveryPasskey

/-- The 32-symbol passkey alphabet from SafetyNet handleGeneratePasskey:
upper-case letters without I and O, digits 2 through 9. -/
def passkeyCharset : String := "ABCDEFGHJKLMNPQRSTUVWXYZ23456789"

/-- SafetyNet handleGeneratePasskey.  The Math.random draws are modelled by
the pick function; the floor of random times 32 is pick i mod 32. -/
def handleGeneratePasskey (pick : ℕ → ℕ) : String :=
  (List.range 16).foldl (fun pk i =>
    (if 0 < i ∧ i % 4 = 0 then pk ++ "-" else pk) ++
      String.singleton (passkeyCharset.data.getD (pick i % 32) 'A')) ""

/-- Events that can clear the VaultLocked gate: the biometric-fallback button
(a simulation in the source: the biometric-equivalent check that always
reports success) and a passkey submission. -/
inductive VaultEvent where
  | bioUnlock
  | passkeyUnlock (input : String)
deriving DecidableEq

/-- App handleLogin: the vault-locked flag is set on entering the session
whenever the settings vault-lock (biometricEnabled) flag is set; otherwise
the previous (initially false) gate value is kept. -/
def vaultLockedAfterLogin (prev : Bool) (data : UserData) : Bool :=
  if data.settings.biometricEnabled then true else prev

/-- One transition of the VaultLocked gate.  handleUnlock clears the gate
after the (simulated, always-successful) biometric-equivalent check;
handlePasskeyUnlock clears it only when the passkey comparison succeeds. -/
def vaultStep (legacy : Option LegacyProfile) (locked : Bool) : VaultEvent → Bool
  | .bioUnlock => false
  | .passkeyUnlock input => if passkeyUnlockCheck legacy input then false else locked

/-- App addEntry: prepend the entry and refresh lastSynced. -/
def addEntry (now : String) (entry : FinanceEntry) (user : UserData) : UserData :=
  { user with entries := entry :: user.entries, lastSynced := now }

/-- App updateEntry: substitute the entry with the matching id and refresh
lastSynced. -/
def updateEntry (now : String) (updatedEntry : FinanceEntry) (user : UserData) : UserData :=
  { user with
    entries := user.entries.map (fun e => if e.id = updatedEntry.id then updatedEntry else e),
    lastSynced := now }

/-- App addEntries: prepend the new entries in bulk and refresh lastSynced. -/
def addEntries (now : String) (newEntries : List FinanceEntry) (user : UserData) : UserData :=
  { user with entries := newEntries ++ user.entries, lastSynced := now }

/-- App updateLegacy: replace the legacy profile and refresh lastSynced. -/
def updateLegacy (now : String) (legacy : LegacyProfile) (user : UserData) : UserData :=
  { user with legacy := some legacy, lastSynced := now }

/-- App acceptTerms: set the termsAccepted flag.  Note the source does NOT
touch lastSynced here. -/
def acceptTerms (user : UserData) : UserData :=
  { user with settings := { user.settings with termsAccepted := true } }

/-- App createInitialData: the fresh empty snapshot with default settings. -/
def createInitialData (now : String) : UserData :=
  { entries := [], goals := [], lastSynced := now,
    settings := { currency := "USD", userName := "FinAA User", biometricEnabled := false,
                  termsAccepted := false, monthlyBudgetLimit := some 5000 } }

/-- One item of the rates array in the parsed exchange-rate response; the
source checks each field before use, so both are optional here. -/
structure RateItem where
  code : Option String
  rate : Option ℚ
deriving DecidableEq

/-- Outcome of the JSON.parse step on the exchange-rate response text:
either the parse throws (malformed text) or it yields a document whose
optional rates field is an array of items. -/
inductive ParseOutcome where
  | throws
  | value (ratesField : Option (List RateItem))
deriving DecidableEq

/-- Array.from(new Set(l)): deduplicate keeping first occurrences. -/
def jsSetDedup (l : List String) : List String :=
  l.foldl (fun acc c => if c ∈ acc then acc else acc ++ [c]) []

/-- The catch-protected tail of fetchExchangeRates: build the rate record
from the parse outcome, starting from the identity entry for the base
currency; a parse failure or a missing rates field yields just that identity
entry.  Items with a falsy code or a non-number rate are skipped. -/
def fetchRatesFromResponse (baseCurrency : String) (p : ParseOutcome) : List (String × ℚ) :=
  match p with
  | .throws => [(baseCurrency, 1)]
  | .value none => [(baseCurrency, 1)]
  | .value (some items) =>
    items.foldl (fun acc it =>
      match it.code, it.rate with
      | some c, some r => if c = "" then acc else alistPut acc c r
      | _, _ => acc) [(baseCurrency, 1)]

/-- fetchExchangeRates.  The external request either rejects (error, the
try block is not reached) or resolves with a response whose parse outcome is
given; empty target sets return the identity table without any request. -/
def fetchExchangeRates (baseCurrency : String) (targetCurrencies : List String)
    (response : Except Unit ParseOutcome) : Except Unit (List (String × ℚ)) :=
  if targetCurrencies = [] then Except.ok [(baseCurrency, 1)]
  else
    let targets := (jsSetDedup targetCurrencies).filter (fun c => !(c == baseCurrency))
    if targets = [] then Except.ok [(baseCurrency, 1)]
    else response.map (fetchRatesFromResponse baseCurrency)

/-- App updateExchangeRates: the set of distinct truthy currency codes across
all entries. -/
def currenciesUsed (u : UserData) : List String :=
  jsSetDedup (u.entries.filterMap (fun e =>
    match e.currency with
    | some c => if c = "" then none else some c
    | none => none))

/-- App updateExchangeRates: with no foreign codes nothing happens; a failed
fetch is caught and leaves the user unchanged; a successful fetch replaces
the cached table with the fetched one. -/
def updateExchangeRatesModel (user : UserData)
    (outcome : Except Unit (List (String × ℚ))) : UserData :=
  if currenciesUsed user = [] then user
  else
    match outcome with
    | .error _ => user
    | .ok rates => { user with exchangeRates := some rates }

/-- JS short-circuit or on strings: the default replaces a missing or empty
(falsy) value. -/
def jsOrStr (o : Option String) (d : String) : String :=
  match o with
  | some s => if s = "" then d else s
  | none => d

/-- JS expression value-or-undefined: a missing or empty string collapses to
undefined (none). -/
def jsOrUndef (o : Option String) : Option String :=
  match o with
  | some s => if s = "" then none else some s
  | none => none

/-- One parsed CSV row as CsvImporter mapToEntry consumes it.  amountVal is
the parseFloat result of the first truthy amount-like column (NaN rows are
outside this rational model); dateIso is the normalised ISO date when the
date column is truthy. -/
structure CsvRow where
  name : Option String := none
  description : Option String := none
  merchant : Option String := none
  amountVal : ℚ
  currency : Option String := none
  dateIso : Option String := none
deriving DecidableEq

/-- Leading-match test on character lists: the first argument occurs at the
head of the second. -/
def charsMatchHead : List Char → List Char → Bool
  | [], _ => true
  | _ :: _, [] => false
  | n :: ns, h :: hs => n == h && charsMatchHead ns hs

/-- Substring test on character lists. -/
def charsContains (needle : List Char) : List Char → Bool
  | [] => needle.isEmpty
  | h :: hs => charsMatchHead needle (h :: hs) || charsContains needle hs

/-- The JS String includes test. -/
def strIncludes (hay needle : String) : Bool := charsContains needle.data hay.data

/-- The category heuristic of CsvImporter mapToEntry. -/
def csvCategory (isCredit : Bool) (lowName : String) : String :=
  if isCredit then "Income"
  else if (strIncludes lowName "rent" || strIncludes lowName "council"
      || strIncludes lowName "utility" || strIncludes lowName "ee"
      || strIncludes lowName "tesco" || strIncludes lowName "lidl"
      || strIncludes lowName "insurance") then "Needs"
  else if (strIncludes lowName "savings" || strIncludes lowName "isa"
      || strIncludes lowName "vanguard") then "Savings"
  else if (strIncludes lowName "loan" || strIncludes lowName "mortgage"
      || strIncludes lowName "credit card") then "Debt"
  else "Wants"

/-- CsvImporter mapToEntry: absolute value of the parsed amount, type ASSET
for credits (strictly positive raw amount) and EXPENSE otherwise. -/
def mapToEntry (id : String) (baseCurrency today : String) (raw : CsvRow) : FinanceEntry :=
  let name := jsOrStr raw.name (jsOrStr raw.description (jsOrStr raw.merchant "Unknown Merchant"))
  let amount := |raw.amountVal|
  let isCredit : Bool := decide (0 < raw.amountVal)
  let date := raw.dateIso.getD today
  { id := id, name := name, amount := amount,
    currency := some (jsOrStr raw.currency baseCurrency),
    date := date,
    type := if isCredit then .ASSET else .EXPENSE,
    category := csvCategory isCredit name.toLower,
    liquidity := some "high" }

/-- The FinanceForms form state at submit time.  The numeric text inputs are
modelled after parseFloat; optional numeric inputs are none when the field is
left empty. -/
structure FormState where
  name : String
  amountVal : ℚ
  currency : String
  type : EntryType
  category : String
  address : String
  plotSize : String
  propertyType : String
  referenceNumber : String
  date : String
  isWorkProvided : Bool
  liquidity : String
  coverageAmountVal : Option ℚ
  emiVal : Option ℚ
  monthsRemainingVal : Option ℚ
deriving DecidableEq

/-- FinanceForms handleSubmit: the entry built from the spread form data.
The parsed amount is carried through unchanged; valuation carries the
grounding sources and stamps lastValuated when a valuation result exists. -/
def handleSubmitEntry (id : String) (now : String) (form : FormState)
    (valuation : Option (List GroundingSource)) : FinanceEntry :=
  { id := id,
    type := form.type,
    category := form.category,
    name := form.name,
    amount := form.amountVal,
    currency := some form.currency,
    date := form.date,
    address := some form.address,
    plotSize := some form.plotSize,
    propertyType := some form.propertyType,
    referenceNumber := some form.referenceNumber,
    isWorkProvided := some form.isWorkProvided,
    liquidity := some form.liquidity,
    coverageAmount := form.coverageAmountVal,
    emi := form.emiVal,
    monthsRemaining := form.monthsRemainingVal,
    valuationSources := valuation,
    lastValuated := if valuation.isSome then some now else none }

/-- The storage mode fixed at login. -/
inductive Mode where
  | drive
  | localDb
  | localFs
deriving DecidableEq

/-- One transaction from the document-extraction response, as FinanceForms
handleFileUpload consumes it (all fields defaulted before use). -/
structure ExtractedTx where
  name : Option String := none
  amount : Option ℚ := none
  currency : Option String := none
  date : Option String := none
  type : Option EntryType := none
  category : Option String := none
  referenceNumber : Option String := none
deriving DecidableEq

/-- GoogleDriveService archiveStatement with an injected I/O failure flag.
In the local-fs and drive modes any error is caught and null is returned; in
the embedded-db mode the store write is NOT guarded, so a failure propagates
as a thrown error.  uploadedId is the server-assigned Drive file id; rand4 is
the random filename suffix. -/
def archiveStatement (mode : Mode) (ioFailure : Bool) (uploadedId : String)
    (rand4 accountName date : String) : Except Unit (Option String) :=
  let fileName := "Statement_" ++ date ++ "_" ++ rand4 ++ ".png"
  match mode with
  | .localFs =>
    if ioFailure then Except.ok none
    else Except.ok (some ("fs://" ++ date.take 7 ++ "/" ++ accountName ++ "/" ++ fileName))
  | .drive =>
    if ioFailure then Except.ok none
    else Except.ok (some uploadedId)
  | .localDb =>
    if ioFailure then Except.error ()
    else Except.ok (some ("idb://blob_" ++ fileName))

/-- FinanceForms handleFileUpload: the entry built for one extracted
transaction, with the archive reference attached when one was produced. -/
def buildScanEntry (id baseCurrency today : String) (res : ExtractedTx)
    (driveId : Option String) : FinanceEntry :=
  { id := id,
    name := jsOrStr res.name "Unnamed Transaction",
    amount := res.amount.getD 0,
    currency := some (jsOrStr res.currency baseCurrency),
    type := res.type.getD .EXPENSE,
    category := jsOrStr res.category "General",
    referenceNumber := some (jsOrStr res.referenceNumber ""),
    date := jsOrStr res.date today,
    isWorkProvided := some false,
    liquidity := some "medium",
    statementDriveId := jsOrUndef driveId }

/-- The archival loop of handleFileUpload over the extracted transactions:
a thrown archive error aborts the whole loop (no entries are added); each
successful step records the entry with its (possibly absent) reference. -/
def scanLoop (archive : ExtractedTx → Except Unit (Option String))
    (baseCurrency today : String) :
    List (String × ExtractedTx) → Except Unit (List FinanceEntry)
  | [] => Except.ok []
  | (id, res) :: rest =>
    match archive res with
    | Except.error e => Except.error e
    | Except.ok driveId =>
      match scanLoop archive baseCurrency today rest with
      | Except.error e => Except.error e
      | Except.ok entries => Except.ok (buildScanEntry id baseCurrency today res driveId :: entries)

/-- A JSON document tree.  The local-fs and drive backends persist the
JSON.stringify of the snapshot and load its JSON.parse; since stringify and
parse are mutually inverse on JSON-safe data, the stored file is modelled as
the document tree itself. -/
inductive Json where
  | jnull
  | jbool (b : Bool)
  | jnum (q : ℚ)
  | jstr (s : String)
  | jarr (items : List Json)
  | jobj (fields : List (String × Json))

/-- Read a JSON value as a string, as the TS code does when it trusts the
parsed document. -/
def Json.asStr : Json → Option String
  | .jstr s => some s
  | _ => none

/-- Read a JSON value as a number. -/
def Json.asNum : Json → Option ℚ
  | .jnum q => some q
  | _ => none

/-- Read a JSON value as a boolean. -/
def Json.asBool : Json → Option Bool
  | .jbool b => some b
  | _ => none

/-- Optional object member: JSON.stringify omits keys whose value is
undefined, so a none field contributes no member at all. -/
def optF (k : String) (v : Option Json) : List (String × Json) :=
  match v with
  | some j => [(k, j)]
  | none => []

/-- String member access on a parsed object. -/
def getStr (fs : List (String × Json)) (k : String) : Option String :=
  (alistGet fs k).bind Json.asStr

/-- Number member access on a parsed object. -/
def getNum (fs : List (String × Json)) (k : String) : Option ℚ :=
  (alistGet fs k).bind Json.asNum

/-- Boolean member access on a parsed object. -/
def getBool (fs : List (String × Json)) (k : String) : Option Bool :=
  (alistGet fs k).bind Json.asBool

/-- Wire name of an entry type, the exact enum string value. -/
def entryTypeStr : EntryType → String
  | .ASSET => "ASSET"
  | .LIABILITY => "LIABILITY"
  | .EXPENSE => "EXPENSE"
  | .BILL => "BILL"
  | .INSURANCE => "INSURANCE"
  | .BENEFIT => "BENEFIT"

/-- Entry type from its wire name. -/
def entryTypeOfStr (s : String) : Option EntryType :=
  if s = "ASSET" then some .ASSET
  else if s = "LIABILITY" then some .LIABILITY
  else if s = "EXPENSE" then some .EXPENSE
  else if s = "BILL" then some .BILL
  else if s = "INSURANCE" then some .INSURANCE
  else if s = "BENEFIT" then some .BENEFIT
  else none

/-- Serialise a grounding source. -/
def encGS (g : GroundingSource) : Json :=
  .jobj [("title", Json.jstr g.title), ("uri", Json.jstr g.uri)]

/-- Read back a grounding source. -/
def decGS (j : Json) : Option GroundingSource :=
  match j with
  | .jobj fs =>
    match getStr fs "title", getStr fs "uri" with
    | some t, some u => some ⟨t, u⟩
    | _, _ => none
  | _ => none

/-- Decode every element of a JSON array, failing if any element fails. -/
def decList {α : Type} (g : Json → Option α) : List Json → Option (List α)
  | [] => some []
  | j :: rest =>
    match g j, decList g rest with
    | some a, some as => some (a :: as)
    | _, _ => none

/-- Read back an optional array-of-sources member: absent means none. -/
def decSrcOpt : Option Json → Option (Option (List GroundingSource))
  | none => some none
  | some (.jarr items) => (decList decGS items).map some
  | some _ => none

/-- Serialise a finance entry with the field set of types.ts; undefined
optionals are omitted. -/
def encEntry (e : FinanceEntry) : Json :=
  .jobj ([("id", Json.jstr e.id), ("type", Json.jstr (entryTypeStr e.type)),
          ("category", Json.jstr e.category), ("name", Json.jstr e.name),
          ("amount", Json.jnum e.amount), ("date", Json.jstr e.date)]
    ++ optF "currency" (e.currency.map Json.jstr)
    ++ optF "initialAmount" (e.initialAmount.map Json.jnum)
    ++ optF "address" (e.address.map Json.jstr)
    ++ optF "plotSize" (e.plotSize.map Json.jstr)
    ++ optF "propertyType" (e.propertyType.map Json.jstr)
    ++ optF "valuationSources" (e.valuationSources.map (fun l => Json.jarr (l.map encGS)))
    ++ optF "lastValuated" (e.lastValuated.map Json.jstr)
    ++ optF "referenceNumber" (e.referenceNumber.map Json.jstr)
    ++ optF "linkedAssetId" (e.linkedAssetId.map Json.jstr)
    ++ optF "statementDriveId" (e.statementDriveId.map Json.jstr)
    ++ optF "isRecurring" (e.isRecurring.map Json.jbool)
    ++ optF "isWorkProvided" (e.isWorkProvided.map Json.jbool)
    ++ optF "liquidity" (e.liquidity.map Json.jstr)
    ++ optF "notes" (e.notes.map Json.jstr)
    ++ optF "coverageAmount" (e.coverageAmount.map Json.jnum)
    ++ optF "expiryDate" (e.expiryDate.map Json.jstr)
    ++ optF "emi" (e.emi.map Json.jnum)
    ++ optF "monthsRemaining" (e.monthsRemaining.map Json.jnum))

/-- Read back a finance entry from a parsed document. -/
def decEntry (j : Json) : Option FinanceEntry :=
  match j with
  | .jobj fs => do
    let id ← getStr fs "id"
    let tyS ← getStr fs "type"
    let ty ← entryTypeOfStr tyS
    let category ← getStr fs "category"
    let name ← getStr fs "name"
    let amount ← getNum fs "amount"
    let date ← getStr fs "date"
    let vsrc ← decSrcOpt (alistGet fs "valuationSources")
    some { id := id, type := ty, category := category, name := name,
           amount := amount, date := date,
           currency := getStr fs "currency",
           initialAmount := getNum fs "initialAmount",
           address := getStr fs "address",
           plotSize := getStr fs "plotSize",
           propertyType := getStr fs "propertyType",
           valuationSources := vsrc,
           lastValuated := getStr fs "lastValuated",
           referenceNumber := getStr fs "referenceNumber",
           linkedAssetId := getStr fs "linkedAssetId",
           statementDriveId := getStr fs "statementDriveId",
           isRecurring := getBool fs "isRecurring",
           isWorkProvided := getBool fs "isWorkProvided",
           liquidity := getStr fs "liquidity",
           notes := getStr fs "notes",
           coverageAmount := getNum fs "coverageAmount",
           expiryDate := getStr fs "expiryDate",
           emi := getNum fs "emi",
           monthsRemaining := getNum fs "monthsRemaining" }
  | _ => none

/-- Serialise a goal. -/
def encGoal (g : Goal) : Json :=
  .jobj ([("id", Json.jstr g.id), ("name", Json.jstr g.name),
          ("targetAmount", Json.jnum g.targetAmount),
          ("currentAmount", Json.jnum g.currentAmount),
          ("category", Json.jstr g.category)]
    ++ optF "currency" (g.currency.map Json.jstr)
    ++ optF "deadline" (g.deadline.map Json.jstr)
    ++ optF "linkedAssetId" (g.linkedAssetId.map Json.jstr))

/-- Read back a goal. -/
def decGoal (j : Json) : Option Goal :=
  match j with
  | .jobj fs => do
    let id ← getStr fs "id"
    let name ← getStr fs "name"
    let targetAmount ← getNum fs "targetAmount"
    let currentAmount ← getNum fs "currentAmount"
    let category ← getStr fs "category"
    some { id := id, name := name, targetAmount := targetAmount,
           currentAmount := currentAmount, category := category,
           currency := getStr fs "currency",
           deadline := getStr fs "deadline",
           linkedAssetId := getStr fs "linkedAssetId" }
  | _ => none

/-- Serialise a legacy profile. -/
def encLegacy (l : LegacyProfile) : Json :=
  .jobj [("successorName", Json.jstr l.successorName),
         ("recoveryPasskey", Json.jstr l.recoveryPasskey),
         ("isConfigured", Json.jbool l.isConfigured),
         ("lastUpdated", Json.jstr l.lastUpdated)]

/-- Read back a legacy profile. -/
def decLegacy (j : Json) : Option LegacyProfile :=
  match j with
  | .jobj fs => do
    let s ← getStr fs "successorName"
    let p ← getStr fs "recoveryPasskey"
    let c ← getBool fs "isConfigured"
    let u ← getStr fs "lastUpdated"
    some ⟨s, p, c, u⟩
  | _ => none

/-- Serialise the settings record. -/
def encSettings (s : Settings) : Json :=
  .jobj ([("currency", Json.jstr s.currency), ("userName", Json.jstr s.userName),
          ("biometricEnabled", Json.jbool s.biometricEnabled),
          ("termsAccepted", Json.jbool s.termsAccepted)]
    ++ optF "spreadsheetId" (s.spreadsheetId.map Json.jstr)
    ++ optF "monthlyBudgetLimit" (s.monthlyBudgetLimit.map Json.jnum))

/-- Read back the settings record. -/
def decSettings (j : Json) : Option Settings :=
  match j with
  | .jobj fs => do
    let currency ← getStr fs "currency"
    let userName ← getStr fs "userName"
    let biometricEnabled ← getBool fs "biometricEnabled"
    let termsAccepted ← getBool fs "termsAccepted"
    some { currency := currency, userName := userName,
           biometricEnabled := biometricEnabled, termsAccepted := termsAccepted,
           spreadsheetId := getStr fs "spreadsheetId",
           monthlyBudgetLimit := getNum fs "monthlyBudgetLimit" }
  | _ => none

/-- Serialise the rate record, one numeric member per currency code. -/
def encRates (rates : List (String × ℚ)) : Json :=
  .jobj (rates.map (fun p => (p.1, Json.jnum p.2)))

/-- Read back the member list of a rate record. -/
def decRatesFields : List (String × Json) → Option (List (String × ℚ))
  | [] => some []
  | (k, v) :: rest =>
    match v.asNum, decRatesFields rest with
    | some q, some r => some ((k, q) :: r)
    | _, _ => none

/-- Read back the rate record. -/
def decRates (j : Json) : Option (List (String × ℚ)) :=
  match j with
  | .jobj fs => decRatesFields fs
  | _ => none

/-- Read back an optional object member through a decoder: absent means none,
present must decode. -/
def decOptWith {α : Type} (g : Json → Option α) : Option Json → Option (Option α)
  | none => some none
  | some j => (g j).map some

/-- Read back an array member: the member must be present and an array. -/
def decArrField {α : Type} (g : Json → Option α) : Option Json → Option (List α)
  | some (.jarr l) => decList g l
  | _ => none

/-- Serialise the whole snapshot, the document every backend persists. -/
def encUserData (u : UserData) : Json :=
  .jobj ([("entries", Json.jarr (u.entries.map encEntry)),
          ("goals", Json.jarr (u.goals.map encGoal)),
          ("lastSynced", Json.jstr u.lastSynced)]
    ++ optF "exchangeRates" (u.exchangeRates.map encRates)
    ++ optF "legacy" (u.legacy.map encLegacy)
    ++ [("settings", encSettings u.settings)])

/-- Read back the whole snapshot. -/
def decUserData (j : Json) : Option UserData :=
  match j with
  | .jobj fs => do
    let entries ← decArrField decEntry (alistGet fs "entries")
    let goals ← decArrField decGoal (alistGet fs "goals")
    let lastSynced ← getStr fs "lastSynced"
    let xr ← decOptWith decRates (alistGet fs "exchangeRates")
    let lg ← decOptWith decLegacy (alistGet fs "legacy")
    let st ← (alistGet fs "settings").bind decSettings
    some { entries := entries, goals := goals, lastSynced := lastSynced,
           exchangeRates := xr, legacy := lg, settings := st }
  | _ => none

/-- A record stored in the embedded key-value store: either the vault
snapshot (IndexedDB stores the structured clone of the object itself, not a
JSON string) or an archived attachment blob. -/
inductive IdbVal where
  | userDoc (u : UserData)
  | blobDoc (base64 mimeType date : String)

/-- The persistent state the three backends write into: the fixed-name vault
file of the local-fs directory, the named Drive files, and the key-value
records of the embedded store. -/
structure Store where
  fsVault : Option Json
  driveFiles : List (String × Json)
  idb : List (String × IdbVal)

/-- The fixed vault document name. -/
def vaultFileName : String := "finaa_vault_v1.json"

/-- The fixed embedded-store key of the vault snapshot. -/
def storageIdbKey : String := "finaa_vault_blob"

/-- The store with nothing persisted yet. -/
def emptyStore : Store := { fsVault := none, driveFiles := [], idb := [] }

/-- GoogleDriveService saveData: every mode fully overwrites its single
persisted vault document. -/
def saveData (mode : Mode) (st : Store) (data : UserData) : Store :=
  match mode with
  | .localFs => { st with fsVault := some (encUserData data) }
  | .drive => { st with driveFiles := alistPut st.driveFiles vaultFileName (encUserData data) }
  | .localDb => { st with idb := alistPut st.idb storageIdbKey (IdbVal.userDoc data) }

/-- GoogleDriveService findFile: the local modes answer a fixed sentinel id
without looking at the store; drive mode looks the name up and returns the
first match (file ids are modelled by names). -/
def findFile (mode : Mode) (st : Store) (name : String) : Option String :=
  match mode with
  | .localFs => some "fs-vault"
  | .localDb => some "idb-vault"
  | .drive => if (alistGet st.driveFiles name).isSome then some name else none

/-- GoogleDriveService downloadData: none models the thrown error (missing
file, missing record, or a document that does not read back as a UserData). -/
def downloadData (mode : Mode) (st : Store) (fileId : String) : Option UserData :=
  match mode with
  | .localFs => st.fsVault.bind decUserData
  | .drive => (alistGet st.driveFiles fileId).bind decUserData
  | .localDb =>
    match alistGet st.idb storageIdbKey with
    | some (IdbVal.userDoc u) => some u
    | _ => none

/-- App handleLogin, data path after a successful backend login: find the
vault document; if an id is found, try the download and on failure substitute
fresh initial data WITHOUT persisting it; if no id is found, substitute fresh
initial data and persist it at once. -/
def handleLoginData (mode : Mode) (st : Store) (now : String) : UserData × Store :=
  match findFile mode st vaultFileName with
  | some fid =>
    match downloadData mode st fid with
    | some d => (d, st)
    | none => (createInitialData now, st)
  | none =>
    let d := createInitialData now
    (d, saveData mode st d)

/-- Concrete settings used by the witness scenarios: USD base currency. -/
def exSettings : Settings :=
  { currency := "USD", userName := "U", biometricEnabled := false, termsAccepted := true }

/-- Concrete cached rate table: identity for USD, 2 units per GBP. -/
def exRates : List (String × ℚ) := [("USD", 1), ("GBP", 2)]

/-- Concrete GBP asset entry. -/
def exEntryGbp : FinanceEntry :=
  { id := "e1", type := .ASSET, category := "Savings", name := "UK Account",
    amount := 254, currency := some "GBP", date := "2025-06-01" }

/-- Concrete base-currency liability entry. -/
def exEntryUsd : FinanceEntry :=
  { id := "e2", type := .LIABILITY, category := "Debt", name := "Loan",
    amount := 100, date := "2025-05-01" }

/-- Concrete user snapshot with a cached two-currency rate table. -/
def exData : UserData :=
  { entries := [exEntryGbp, exEntryUsd], goals := [], lastSynced := "2025-06-02",
    exchangeRates := some exRates, settings := exSettings }

/-- The identity random stream for passkey generation: draw i yields index i. -/
def idPick : ℕ → ℕ := fun i => i

/-- Concrete legacy profile whose recovery passkey is a generated one. -/
def exLegacy : LegacyProfile :=
  { successorName := "Successor", recoveryPasskey := handleGeneratePasskey idPick,
    isConfigured := true, lastUpdated := "2025-01-01" }

/-- Concrete form state with a negative typed amount (the value input has no
lower bound in the form markup). -/
def exFormNeg : FormState :=
  { name := "Refund chargeback", amountVal := -50, currency := "USD",
    type := .EXPENSE, category := "Wants", address := "", plotSize := "",
    propertyType := "Home", referenceNumber := "", date := "2025-06-15",
    isWorkProvided := false, liquidity := "medium", coverageAmountVal := none,
    emiVal := none, monthsRemainingVal := none }

/-- Concrete extracted transaction for the scan-loop scenarios. -/
def exTx : ExtractedTx :=
  { name := some "Acme", amount := some 20, date := some "2025-06-01" }

/-! ### Association-list lookup lemmas -/

@[simp] theorem alistGet_nil {α : Type} (k : String) :
    alistGet ([] : List (String × α)) k = none := rfl

@[simp] theorem alistGet_cons_self {α : Type} (k : String) (v : α)
    (rest : List (String × α)) : alistGet ((k, v) :: rest) k = some v := by
  simp [alistGet]

@[simp] theorem alistGet_cons_ne {α : Type} (k2 : String) (v : α)
    (rest : List (String × α)) (k : String) (h : ¬ k2 = k) :
    alistGet ((k2, v) :: rest) k = alistGet rest k := by
  simp [alistGet, h]

@[simp] theorem alistGet_optF_ne (k2 : String) (v : Option Json)
    (rest : List (String × Json)) (k : String) (h : ¬ k2 = k) :
    alistGet (optF k2 v ++ rest) k = alistGet rest k := by
  cases v <;> simp [optF, h]

@[simp] theorem alistGet_optF_self (k : String) (v : Option Json)
    (rest : List (String × Json)) (h : alistGet rest k = none) :
    alistGet (optF k v ++ rest) k = v := by
  cases v <;> simp [optF, h]

@[simp] theorem alistGet_optF_last_self (k : String) (v : Option Json) :
    alistGet (optF k v) k = v := by
  cases v <;> simp [optF]

@[simp] theorem alistGet_optF_last_ne (k2 : String) (v : Option Json) (k : String)
    (h : ¬ k2 = k) : alistGet (optF k2 v) k = none := by
  cases v <;> simp [optF, h]

theorem alistGet_replaceFirst_self {α : Type} (m : List (String × α)) (k : String) (v : α)
    (h : (alistGet m k).isSome) : alistGet (alistReplaceFirst m k v) k = some v := by
  induction m with
  | nil => simp [alistGet] at h
  | cons p rest ih =>
    obtain ⟨k2, v2⟩ := p
    by_cases hk : k2 = k
    · subst hk; simp [alistReplaceFirst]
    · simp only [alistReplaceFirst, if_neg hk]
      rw [alistGet_cons_ne _ _ _ _ hk]
      exact ih (by simpa [alistGet, hk] using h)

theorem alistGet_append_self {α : Type} (m : List (String × α)) (k : String) (v : α)
    (h : alistGet m k = none) : alistGet (m ++ [(k, v)]) k = some v := by
  induction m with
  | nil => simp [alistGet]
  | cons p rest ih =>
    obtain ⟨k2, v2⟩ := p
    by_cases hk : k2 = k
    · subst hk; simp [alistGet] at h
    · simp only [List.cons_append]
      rw [alistGet_cons_ne _ _ _ _ hk]
      rw [alistGet_cons_ne _ _ _ _ hk] at h
      exact ih h

theorem alistGet_put {α : Type} (m : List (String × α)) (k : String) (v : α) :
    alistGet (alistPut m k v) k = some v := by
  unfold alistPut
  by_cases h : (alistGet m k).isSome
  · simp only [h, if_true]
    exact alistGet_replaceFirst_self m k v h
  · simp only [h, if_false]
    exact alistGet_append_self m k v (Option.not_isSome_iff_eq_none.mp h)

/-! ### Round-trip lemmas for the persisted document -/

@[simp] theorem asStr_jstr (s : String) : Json.asStr (Json.jstr s) = some s := rfl

@[simp] theorem asNum_jnum (q : ℚ) : Json.asNum (Json.jnum q) = some q := rfl

@[simp] theorem asBool_jbool (b : Bool) : Json.asBool (Json.jbool b) = some b := rfl

@[simp] theorem map_jstr_bind_asStr (o : Option String) :
    (o.map Json.jstr).bind Json.asStr = o := by cases o <;> rfl

@[simp] theorem map_jnum_bind_asNum (o : Option ℚ) :
    (o.map Json.jnum).bind Json.asNum = o := by cases o <;> rfl

@[simp] theorem map_jbool_bind_asBool (o : Option Bool) :
    (o.map Json.jbool).bind Json.asBool = o := by cases o <;> rfl

@[simp] theorem entryTypeOfStr_entryTypeStr (t : EntryType) :
    entryTypeOfStr (entryTypeStr t) = some t := by cases t <;> rfl

@[simp] theorem decGS_encGS (g : GroundingSource) : decGS (encGS g) = some g := by
  cases g; rfl

theorem decList_map {α : Type} (f : α → Json) (g : Json → Option α)
    (h : ∀ a, g (f a) = some a) (l : List α) : decList g (l.map f) = some l := by
  induction l with
  | nil => rfl
  | cons a as ih => simp [decList, h, ih]

@[simp] theorem decSrcOpt_enc (o : Option (List GroundingSource)) :
    decSrcOpt (o.map (fun l => Json.jarr (l.map encGS))) = some o := by
  cases o with
  | none => rfl
  | some l => simp [decSrcOpt, decList_map encGS decGS decGS_encGS]

@[simp] theorem decEntry_encEntry (e : FinanceEntry) : decEntry (encEntry e) = some e := by
  cases e
  simp [decEntry, encEntry, getStr, getNum, getBool]

@[simp] theorem decGoal_encGoal (g : Goal) : decGoal (encGoal g) = some g := by
  cases g
  simp [decGoal, encGoal, getStr, getNum]

@[simp] theorem decLegacy_encLegacy (l : LegacyProfile) : decLegacy (encLegacy l) = some l := by
  cases l; rfl

@[simp] theorem decSettings_encSettings (s : Settings) :
    decSettings (encSettings s) = some s := by
  cases s
  simp [decSettings, encSettings, getStr, getNum, getBool]

@[simp] theorem decRatesFields_enc (rates : List (String × ℚ)) :
    decRatesFields (rates.map (fun p => (p.1, Json.jnum p.2))) = some rates := by
  induction rates with
  | nil => rfl
  | cons p rest ih => simp [decRatesFields, ih]

@[simp] theorem decRates_encRates (rates : List (String × ℚ)) :
    decRates (encRates rates) = some rates := by
  simp [decRates, encRates]

@[simp] theorem decOptWith_encRates (o : Option (List (String × ℚ))) :
    decOptWith decRates (o.map encRates) = some o := by
  cases o <;> simp [decOptWith]

@[simp] theorem decOptWith_encLegacy (o : Option LegacyProfile) :
    decOptWith decLegacy (o.map encLegacy) = some o := by
  cases o <;> simp [decOptWith]

@[simp] theorem decArrField_encEntry (l : List FinanceEntry) :
    decArrField decEntry (some (Json.jarr (l.map encEntry))) = some l := by
  simp [decArrField, decList_map encEntry decEntry decEntry_encEntry]

@[simp] theorem decArrField_encGoal (l : List Goal) :
    decArrField decGoal (some (Json.jarr (l.map encGoal))) = some l := by
  simp [decArrField, decList_map encGoal decGoal decGoal_encGoal]

theorem decUserData_encUserData (u : UserData) : decUserData (encUserData u) = some u := by
  cases u
  simp [decUserData, encUserData, getStr]

/-! ### Dashboard fold lemmas -/

theorem statsStep_assets (b : String) (xr : Option (List (String × ℚ))) (m : String)
    (acc : StatsAcc) (e : FinanceEntry) :
    (statsStep b xr m acc e).assets = acc.assets +
      (if e.type = EntryType.ASSET then getConvertedAmount b xr e.amount e.currency else 0) := by
  cases he : e.type <;> simp [statsStep, he] <;> split_ifs <;> simp

theorem statsStep_debt (b : String) (xr : Option (List (String × ℚ))) (m : String)
    (acc : StatsAcc) (e : FinanceEntry) :
    (statsStep b xr m acc e).debt = acc.debt +
      (if e.type = EntryType.LIABILITY then getConvertedAmount b xr e.amount e.currency else 0) := by
  cases he : e.type <;> simp [statsStep, he] <;> split_ifs <;> simp

theorem foldl_stats_assets (b : String) (xr : Option (List (String × ℚ))) (m : String)
    (l : List FinanceEntry) (acc : StatsAcc) :
    (l.foldl (statsStep b xr m) acc).assets = acc.assets +
      (l.map (fun e =>
        if e.type = EntryType.ASSET then getConvertedAmount b xr e.amount e.currency else 0)).sum := by
  induction l generalizing acc with
  | nil => simp
  | cons e es ih => simp [List.foldl_cons, ih, statsStep_assets, add_assoc]

theorem foldl_stats_debt (b : String) (xr : Option (List (String × ℚ))) (m : String)
    (l : List FinanceEntry) (acc : StatsAcc) :
    (l.foldl (statsStep b xr m) acc).debt = acc.debt +
      (l.map (fun e =>
        if e.type = EntryType.LIABILITY then getConvertedAmount b xr e.amount e.currency else 0)).sum := by
  induction l generalizing acc with
  | nil => simp
  | cons e es ih => simp [List.foldl_cons, ih, statsStep_debt, add_assoc]

theorem sum_ite_type (l : List FinanceEntry) (t : EntryType) (f : FinanceEntry → ℚ) :
    (l.map (fun e => if e.type = t then f e else 0)).sum
      = ((l.filter (fun e => e.type == t)).map f).sum := by
  induction l with
  | nil => rfl
  | cons e es ih =>
    by_cases h : e.type = t <;> simp [List.filter_cons, beq_iff_eq, h, ih]

theorem conv_agree (base : String) (rates : List (String × ℚ)) (e : FinanceEntry)
    (h : ratesOkFor base rates e = true) :
    getConvertedAmount base (some rates) e.amount e.currency
      = claimConvert base rates e.amount e.currency := by
  cases hcur : e.currency with
  | none => rfl
  | some c =>
    unfold ratesOkFor at h
    rw [hcur] at h
    simp at h
    obtain ⟨hne, hor⟩ := h
    by_cases hb : c = base
    · simp [getConvertedAmount, claimConvert, hb]
    · have hnz : ¬ (lookupRate rates c).getD 0 = 0 := hor.resolve_left hb
      cases hl : lookupRate rates c with
      | none => rw [hl] at hnz; simp at hnz
      | some r =>
        rw [hl] at hnz
        simp only [Option.getD_some] at hnz
        simp [getConvertedAmount, claimConvert, hb, hne, hl, hnz]

/-! ### Claim theorems -/

/-- C1: whenever the settings vault-lock flag is set, the VaultLocked gate is
active on entering the session; and a locked vault transitions to unlocked
only through the biometric-equivalent check event (which the source simulates
as always succeeding) or through a passkey submission whose comparison
against the stored recovery passkey succeeded. -/
theorem vault_lock_gate :
    (∀ (prev : Bool) (d : UserData), d.settings.biometricEnabled = true →
      vaultLockedAfterLogin prev d = true) ∧
    (∀ (legacy : Option LegacyProfile) (ev : VaultEvent),
      vaultStep legacy true ev = false →
      ev = VaultEvent.bioUnlock ∨
        ∃ inp, ev = VaultEvent.passkeyUnlock inp ∧ passkeyUnlockCheck legacy inp = true) := by
  constructor
  · intro prev d h
    simp [vaultLockedAfterLogin, h]
  · intro legacy ev h
    cases ev with
    | bioUnlock => exact Or.inl rfl
    | passkeyUnlock inp =>
      refine Or.inr ⟨inp, rfl, ?_⟩
      by_cases hc : passkeyUnlockCheck legacy inp = true
      · exact hc
      · simp [vaultStep, hc] at h

/-- C1 witness: a snapshot with the vault-lock flag set enters the session
locked, and the generated passkey typed lowercase without hyphens clears the
gate through the passkey check. -/
theorem vault_lock_gate_witness :
    vaultLockedAfterLogin false
      { exData with settings := { exSettings with biometricEnabled := true } } = true ∧
    (VaultEvent.passkeyUnlock "abcd efgh jklm npqr" = VaultEvent.bioUnlock ∨
      ∃ inp, VaultEvent.passkeyUnlock "abcd efgh jklm npqr" = VaultEvent.passkeyUnlock inp ∧
        passkeyUnlockCheck (some exLegacy) inp = true) := by
  constructor
  · exact vault_lock_gate.1 false _ rfl
  · exact vault_lock_gate.2 (some exLegacy)
      (VaultEvent.passkeyUnlock "abcd efgh jklm npqr") (by decide)

/-- C2: with the cached table present, complete for every currency used and
free of zero rates, the dashboard net worth equals the sum of base-converted
ASSET amounts minus the sum of base-converted LIABILITY amounts, with
conversion amount divided by the table rate. -/
theorem net_worth_formula (data : UserData) (rates : List (String × ℚ)) (m : String)
    (hx : data.exchangeRates = some rates)
    (hc : ∀ e ∈ data.entries, ratesOkFor data.settings.currency rates e = true) :
    netWorth data m = claimNetWorth data rates := by
  simp only [netWorth, computeStatsAcc, claimNetWorth]
  rw [hx, foldl_stats_assets, foldl_stats_debt, sum_ite_type, sum_ite_type]
  have e1 : ∀ e ∈ data.entries.filter (fun e => e.type == EntryType.ASSET),
      getConvertedAmount data.settings.currency (some rates) e.amount e.currency
        = claimConvert data.settings.currency rates e.amount e.currency := by
    intro e he
    exact conv_agree _ _ _ (hc e (List.mem_of_mem_filter he))
  have e2 : ∀ e ∈ data.entries.filter (fun e => e.type == EntryType.LIABILITY),
      getConvertedAmount data.settings.currency (some rates) e.amount e.currency
        = claimConvert data.settings.currency rates e.amount e.currency := by
    intro e he
    exact conv_agree _ _ _ (hc e (List.mem_of_mem_filter he))
  rw [List.map_congr_left e1, List.map_congr_left e2]
  simp [statsAcc0]

/-- C2 witness: a GBP asset of 254 at rate 2 and a USD liability of 100 give
net worth 27 both ways. -/
theorem net_worth_formula_witness :
    netWorth exData "2025-06" = claimNetWorth exData exRates :=
  net_worth_formula exData exRates "2025-06" rfl (by decide)

/-- C3: for each backend mode, saving a snapshot and immediately downloading
it from the same backend yields the identical UserData: the local-fs file,
the embedded-db record and the drive document all read back structurally
equal, for every snapshot and every prior store state. -/
theorem save_download_roundtrip (st : Store) (data : UserData) :
    downloadData .localFs (saveData .localFs st data) "fs-vault" = some data ∧
    downloadData .localDb (saveData .localDb st data) "idb-vault" = some data ∧
    findFile .drive (saveData .drive st data) vaultFileName = some vaultFileName ∧
    downloadData .drive (saveData .drive st data) vaultFileName = some data := by
  refine ⟨?_, ?_, ?_, ?_⟩
  · simp [downloadData, saveData, decUserData_encUserData]
  · simp [downloadData, saveData, alistGet_put]
  · simp [findFile, saveData, alistGet_put]
  · simp [downloadData, saveData, alistGet_put, decUserData_encUserData]

/-- C4: a currency code missing from the cached rate table makes both
conversion helpers return the raw amount unchanged (the functions are total,
so no exception, and the result is the amount itself, not zero). -/
theorem missing_rate_raw_amount (base : String) (rates : List (String × ℚ))
    (a : ℚ) (c : String) (h : lookupRate rates c = none) :
    getConvertedAmount base (some rates) a (some c) = a ∧
    matrixGetConverted base (some rates) (some c) a = a := by
  constructor
  · by_cases hb : c = "" ∨ c = base
    · simp [getConvertedAmount, hb]
    · simp [getConvertedAmount, hb, h]
  · by_cases hb : c = "" ∨ c = base
    · simp [matrixGetConverted, hb]
    · simp [matrixGetConverted, hb, h]

/-- C4 witness: EUR is not in the table, so a 5 EUR amount stays 5. -/
theorem missing_rate_raw_amount_witness :
    getConvertedAmount "USD" (some exRates) 5 (some "EUR") = 5 ∧
    matrixGetConverted "USD" (some exRates) (some "EUR") 5 = 5 :=
  missing_rate_raw_amount "USD" exRates 5 "EUR" (by decide)

/-- C5 counterexample: with USD and GBP cached, a malformed (unparseable)
rate response does NOT retain the cache: the refresh stores the identity
table, dropping the GBP rate. -/
theorem rates_malformed_replaces_cache :
    (updateExchangeRatesModel exData
        (fetchExchangeRates "USD" (currenciesUsed exData)
          (Except.ok ParseOutcome.throws))).exchangeRates = some [("USD", 1)] ∧
    exData.exchangeRates = some [("USD", 1), ("GBP", 2)] := by
  constructor <;> rfl

/-- C5 amended (corrected): a rejected rate request leaves the snapshot and
its cached table untouched, but a request that resolves with malformed or
unparseable JSON yields the identity table for the base currency, which then
replaces (and can shrink) the cached table whenever foreign codes are in
use. -/
theorem rate_refresh_error_policy :
    (∀ u : UserData, updateExchangeRatesModel u (Except.error ()) = u) ∧
    (∀ (base : String) (ts : List String),
      fetchExchangeRates base ts (Except.ok ParseOutcome.throws) = Except.ok [(base, 1)]) ∧
    (∀ (u : UserData) (rs : List (String × ℚ)),
      updateExchangeRatesModel u (Except.ok rs)
        = if currenciesUsed u = [] then u else { u with exchangeRates := some rs }) := by
  refine ⟨?_, ?_, ?_⟩
  · intro u
    unfold updateExchangeRatesModel
    split_ifs <;> rfl
  · intro base ts
    unfold fetchExchangeRates
    split_ifs <;> simp [Except.map, fetchRatesFromResponse]
  · intro u rs
    unfold updateExchangeRatesModel
    split_ifs <;> rfl

/-- C6 (code-bug evaluation): the generator with the identity random stream
produces the 4-4-4-4 hyphen-grouped passkey ABCD-EFGH-JKLM-NPQR from the
32-symbol alphabet, yet submitting that stored passkey verbatim fails the
comparison, because hyphens are stripped from the stored side only. -/
theorem generated_passkey_rejected_verbatim :
    handleGeneratePasskey idPick = "ABCD-EFGH-JKLM-NPQR" ∧
    passkeyUnlockCheck (some exLegacy) (handleGeneratePasskey idPick) = false := by
  constructor <;> decide

/-- C7 counterexample: accepting the terms does not refresh lastSynced: the
snapshot keeps its old timestamp, so the claim fails at this input for the
fresh timestamp 2025-10-12. -/
theorem accept_terms_keeps_lastSynced :
    (acceptTerms exData).lastSynced = "2025-06-02" ∧
    ¬ (acceptTerms exData).lastSynced = "2025-10-12T00:00:00.000Z" := by
  exact ⟨rfl, by decide⟩

/-- C7 amended (corrected): add entry, bulk add, update entry and set legacy
profile each produce a structural copy with only the intended field changed
and lastSynced refreshed; accept terms changes only the termsAccepted flag
and leaves lastSynced and every other field unchanged.  (Goal mutations have
no controller handler in the source.) -/
theorem mutation_protocol :
    (∀ (now : String) (e : FinanceEntry) (u : UserData),
      (addEntry now e u).entries = e :: u.entries ∧ (addEntry now e u).lastSynced = now ∧
      (addEntry now e u).goals = u.goals ∧ (addEntry now e u).exchangeRates = u.exchangeRates ∧
      (addEntry now e u).legacy = u.legacy ∧ (addEntry now e u).settings = u.settings) ∧
    (∀ (now : String) (e : FinanceEntry) (u : UserData),
      (updateEntry now e u).entries
          = u.entries.map (fun x => if x.id = e.id then e else x) ∧
      (updateEntry now e u).lastSynced = now ∧
      (updateEntry now e u).goals = u.goals ∧
      (updateEntry now e u).exchangeRates = u.exchangeRates ∧
      (updateEntry now e u).legacy = u.legacy ∧ (updateEntry now e u).settings = u.settings) ∧
    (∀ (now : String) (es : List FinanceEntry) (u : UserData),
      (addEntries now es u).entries = es ++ u.entries ∧
      (addEntries now es u).lastSynced = now ∧
      (addEntries now es u).goals = u.goals ∧
      (addEntries now es u).exchangeRates = u.exchangeRates ∧
      (addEntries now es u).legacy = u.legacy ∧ (addEntries now es u).settings = u.settings) ∧
    (∀ (now : String) (lg : LegacyProfile) (u : UserData),
      (updateLegacy now lg u).legacy = some lg ∧ (updateLegacy now lg u).lastSynced = now ∧
      (updateLegacy now lg u).entries = u.entries ∧ (updateLegacy now lg u).goals = u.goals ∧
      (updateLegacy now lg u).exchangeRates = u.exchangeRates ∧
      (updateLegacy now lg u).settings = u.settings) ∧
    (∀ u : UserData,
      (acceptTerms u).settings.termsAccepted = true ∧
      (acceptTerms u).settings.currency = u.settings.currency ∧
      (acceptTerms u).settings.userName = u.settings.userName ∧
      (acceptTerms u).settings.biometricEnabled = u.settings.biometricEnabled ∧
      (acceptTerms u).settings.spreadsheetId = u.settings.spreadsheetId ∧
      (acceptTerms u).settings.monthlyBudgetLimit = u.settings.monthlyBudgetLimit ∧
      (acceptTerms u).lastSynced = u.lastSynced ∧
      (acceptTerms u).entries = u.entries ∧ (acceptTerms u).goals = u.goals ∧
      (acceptTerms u).exchangeRates = u.exchangeRates ∧
      (acceptTerms u).legacy = u.legacy) :=
  ⟨fun _ _ _ => ⟨rfl, rfl, rfl, rfl, rfl, rfl⟩,
   fun _ _ _ => ⟨rfl, rfl, rfl, rfl, rfl, rfl⟩,
   fun _ _ _ => ⟨rfl, rfl, rfl, rfl, rfl, rfl⟩,
   fun _ _ _ => ⟨rfl, rfl, rfl, rfl, rfl, rfl⟩,
   fun _ => ⟨rfl, rfl, rfl, rfl, rfl, rfl, rfl, rfl, rfl, rfl, rfl⟩⟩

/-- C8 counterexample: guest-vault login over an empty store: the lookup
returns the fixed sentinel, the download fails, fresh initial data is
substituted, but the store is left unchanged and still holds no snapshot, so
the fresh snapshot was NOT immediately persisted. -/
theorem fresh_data_not_persisted :
    (handleLoginData .localDb emptyStore "2025-01-01").1 = createInitialData "2025-01-01" ∧
    (handleLoginData .localDb emptyStore "2025-01-01").2 = emptyStore ∧
    downloadData .localDb (handleLoginData .localDb emptyStore "2025-01-01").2 "idb-vault"
      = none :=
  ⟨rfl, rfl, rfl⟩

/-- C8 amended (corrected): recovery always substitutes fresh initial data
with default settings (USD base, empty entries and goals) and surfaces no
error; the fresh snapshot is immediately persisted only when the name lookup
reports no document (drive mode without a file); when a found id fails to
download, the fresh snapshot is substituted without being persisted. -/
theorem download_recovery :
    (∀ now : String, (createInitialData now).settings.currency = "USD" ∧
      (createInitialData now).entries = [] ∧ (createInitialData now).goals = []) ∧
    (∀ (st : Store) (now : String), alistGet st.driveFiles vaultFileName = none →
      handleLoginData .drive st now
        = (createInitialData now, saveData .drive st (createInitialData now)) ∧
      downloadData .drive (handleLoginData .drive st now).2 vaultFileName
        = some (createInitialData now)) ∧
    (∀ (mode : Mode) (st : Store) (now fid : String),
      findFile mode st vaultFileName = some fid →
      downloadData mode st fid = none →
      handleLoginData mode st now = (createInitialData now, st)) := by
  refine ⟨fun now => ⟨rfl, rfl, rfl⟩, ?_, ?_⟩
  · intro st now h
    have hf : findFile .drive st vaultFileName = none := by simp [findFile, h]
    constructor
    · simp [handleLoginData, hf]
    · simp [handleLoginData, hf, saveData, downloadData, alistGet_put, decUserData_encUserData]
  · intro mode st now fid h1 h2
    simp [handleLoginData, h1, h2]

/-- C8 witness: drive login over an empty store persists and re-reads the
fresh initial snapshot. -/
theorem download_recovery_witness :
    (handleLoginData .drive emptyStore "T0"
        = (createInitialData "T0", saveData .drive emptyStore (createInitialData "T0"))) ∧
    downloadData .drive (handleLoginData .drive emptyStore "T0").2 vaultFileName
      = some (createInitialData "T0") :=
  download_recovery.2.1 emptyStore "T0" rfl

/-- C9 counterexample: in the embedded-db mode a store failure during
archival is not caught: archiveStatement propagates the error and the
surrounding bulk entry save aborts with no entry recorded. -/
theorem idb_archive_error_aborts_save :
    archiveStatement .localDb true "up1" "r4" "Acme" "2025-06-01" = Except.error () ∧
    scanLoop (fun r => archiveStatement .localDb true "up1" "r4"
        (jsOrStr r.name "Unknown Merchant") (jsOrStr r.date "2025-06-01"))
      "USD" "2025-06-01" [("id1", exTx)] = Except.error () :=
  ⟨rfl, rfl⟩

/-- C9 amended (corrected): in the local-fs and drive modes any archival
error yields null (no reference) instead of throwing, and the surrounding
entry save proceeds with the attachment reference simply absent; in the
embedded-db mode the store write is unguarded, so an error there aborts the
bulk save. -/
theorem archive_error_policy :
    (∀ up r4 acct date : String,
      archiveStatement .localFs true up r4 acct date = Except.ok none) ∧
    (∀ up r4 acct date : String,
      archiveStatement .drive true up r4 acct date = Except.ok none) ∧
    (∀ (id base today : String) (res : ExtractedTx),
      scanLoop (fun _ => Except.ok none) base today [(id, res)]
        = Except.ok [buildScanEntry id base today res none] ∧
      (buildScanEntry id base today res none).statementDriveId = none) :=
  ⟨fun _ _ _ _ => rfl, fun _ _ _ _ => rfl, fun _ _ _ _ => ⟨rfl, rfl⟩⟩

/-- C10 counterexample: the manual form passes the parsed amount through
unchanged, so a negative typed amount is stored negative. -/
theorem negative_manual_amount :
    (handleSubmitEntry "id9" "2025-06-15T00:00:00.000Z" exFormNeg none).amount = -50 ∧
    ¬ (0 ≤ (handleSubmitEntry "id9" "2025-06-15T00:00:00.000Z" exFormNeg none).amount) := by
  exact ⟨rfl, by decide⟩

/-- C10 amended (corrected): CSV-imported entries always carry the absolute
value of the parsed amount, hence non-negative; manually submitted and
document-extracted entries carry the provided amount through unchanged, so
they are non-negative exactly when the provided amount is. -/
theorem amount_sign_policy :
    (∀ (id base today : String) (raw : CsvRow), 0 ≤ (mapToEntry id base today raw).amount) ∧
    (∀ (id now : String) (form : FormState) (v : Option (List GroundingSource)),
      0 ≤ form.amountVal → 0 ≤ (handleSubmitEntry id now form v).amount) ∧
    (∀ (id base today : String) (res : ExtractedTx) (driveId : Option String),
      0 ≤ res.amount.getD 0 → 0 ≤ (buildScanEntry id base today res driveId).amount) := by
  refine ⟨?_, ?_, ?_⟩
  · intro id base today raw
    exact abs_nonneg raw.amountVal
  · intro id now form v h
    exact h
  · intro id base today res driveId h
    exact h

/-- C10 witness: a CSV row with amount -30 imports as 30; a manual submit of
25 stays 25; the extracted 20 stays 20. -/
theorem amount_sign_policy_witness :
    0 ≤ (mapToEntry "c1" "USD" "2025-06-15" { amountVal := -30 }).amount ∧
    0 ≤ (handleSubmitEntry "c2" "now" { exFormNeg with amountVal := 25 } none).amount ∧
    0 ≤ (buildScanEntry "c3" "USD" "2025-06-15" exTx none).amount :=
  ⟨amount_sign_policy.1 "c1" "USD" "2025-06-15" { amountVal := -30 },
   amount_sign_policy.2.1 "c2" "now" { exFormNeg with amountVal := 25 } none (by decide),
   amount_sign_policy.2.2 "c3" "USD" "2025-06-15" exTx none (by decide)⟩

end FinAA
